import Mathlib

/-!
Shallow embedding of `clawdbot-integration/skills/claude-code-clawdbot/scripts/claude_code_run.py`,
a helper that runs the `claude` CLI either headless or inside a tmux session.

Modelling conventions: Python optional strings become `Option String`;
Python truthiness on a string is the test against `""`; the ambient system
(environment variables, `shutil.which`, the filesystem, child exit codes,
tmux call outcomes, pane captures) is an explicit `Sys` record passed in;
observable actions (child processes, sleeps, prints, directory creation)
are collected into an explicit `Effect` trace; a propagated Python
exception is `Except.error`.
-/

/-- Worker for `pySplitlines`: cuts a character list at each of the line
terminators `\r\n`, `\r`, `\n`, accumulating the current line reversed. -/
def splitlinesAux : List Char → List Char → List String
  | acc, [] => [String.mk acc.reverse]
  | acc, '\r' :: '\n' :: rest => String.mk acc.reverse :: splitlinesAux [] rest
  | acc, '\r' :: rest => String.mk acc.reverse :: splitlinesAux [] rest
  | acc, '\n' :: rest => String.mk acc.reverse :: splitlinesAux [] rest
  | acc, c :: rest => splitlinesAux (c :: acc) rest

/-- Python `str.splitlines` for the terminators `\n`, `\r`, `\r\n`:
the empty string has no lines, and a trailing terminator does not produce
a final empty line. -/
def pySplitlines (s : String) : List String :=
  let parts := splitlinesAux [] s.toList
  if parts.getLast? = some "" then parts.dropLast else parts

/-- Whitespace characters recognised by Python `str.strip` and
`str.lstrip`, restricted to the ASCII and Latin-1 range. -/
def isPySpace (c : Char) : Bool :=
  c = ' ' || c = '\t' || c = '\n' || c = '\r' || c = '\x0b' || c = '\x0c' ||
  c = '\x1c' || c = '\x1d' || c = '\x1e' || c = '\x1f' || c = '\x85' || c = '\xa0'

/-- Python `str.lstrip()` with no argument. -/
def pyLstrip (s : String) : String :=
  String.mk (s.toList.dropWhile isPySpace)

/-- Python `str.strip()` with no argument. -/
def pyStrip (s : String) : String :=
  String.mk (((s.toList.dropWhile isPySpace).reverse.dropWhile isPySpace).reverse)

/-- Python `str.startswith` with a single string argument: a prefix test. -/
def pyStartsWith (s pre : String) : Bool :=
  pre.toList.isPrefixOf s.toList

/-- Embeds `looks_like_slash_commands` (claude_code_run.py lines 23-26):
`if not prompt: return False` covers both `None` and the empty string,
then `any(line.lstrip().startswith("/") for line in prompt.splitlines())`. -/
def looks_like_slash_commands (prompt : Option String) : Bool :=
  match prompt with
  | none => false
  | some p =>
    if p = "" then false
    else (pySplitlines p).any (fun line => pyStartsWith (pyLstrip line) "/")

/-- The parsed command-line options of the script (the `argparse.Namespace`
built in `main`, lines 182-214), with the argparse defaults. -/
structure Args where
  claude_bin : String
  prompt : Option String := none
  mode : String := "auto"
  permission_mode : Option String := none
  allowed_tools : Option String := none
  output_format : Option String := none
  json_schema : Option String := none
  append_system_prompt : Option String := none
  system_prompt : Option String := none
  continue_latest : Bool := false
  resume : Option String := none
  cwd : Option String := none
  tmux_session : String := "cc"
  tmux_socket_dir : Option String := none
  tmux_socket_name : String := "claude-code.sock"
  interactive_wait_s : Int := 0
  interactive_send_delay_ms : Int := 800
  extra : List String := []
deriving Repr, DecidableEq

/-- One Python statement shape `if args.field: cmd += [flag, args.field]`:
the field contributes nothing when it is `None` or `""` (falsy). -/
def addOpt (cmd : List String) (flag : String) (v : Option String) : List String :=
  match v with
  | none => cmd
  | some s => if s = "" then cmd else cmd ++ [flag, s]

/-- One Python statement shape `if args.flag: cmd.append(f)`. -/
def addFlag (cmd : List String) (b : Bool) (f : String) : List String :=
  if b then cmd ++ [f] else cmd

/-- The prompt step of `build_cmd` (lines 66-67): the test is
`args.prompt is not None`, so an empty-string prompt is still appended. -/
def addPrompt (cmd : List String) (v : Option String) : List String :=
  match v with
  | none => cmd
  | some p => cmd ++ ["-p", p]

/-- One Python statement shape `if args.extra: cmd += args.extra`. -/
def addExtra (cmd : List String) (l : List String) : List String :=
  if l.isEmpty then cmd else cmd ++ l

/-- Embeds `build_cmd` (claude_code_run.py lines 39-72): sequential
appends to `cmd`, starting from `[args.claude_bin]`. -/
def build_cmd (a : Args) : List String :=
  let cmd := [a.claude_bin]
  let cmd := addOpt cmd "--permission-mode" a.permission_mode
  let cmd := addOpt cmd "--allowedTools" a.allowed_tools
  let cmd := addOpt cmd "--output-format" a.output_format
  let cmd := addOpt cmd "--json-schema" a.json_schema
  let cmd := addOpt cmd "--append-system-prompt" a.append_system_prompt
  let cmd := addOpt cmd "--system-prompt" a.system_prompt
  let cmd := addFlag cmd a.continue_latest "--continue"
  let cmd := addOpt cmd "--resume" a.resume
  let cmd := addPrompt cmd a.prompt
  let cmd := addExtra cmd a.extra
  cmd

/-- Embeds the mode computation of `main` (lines 220-222): the heuristic
fires only when the explicit mode is `auto`. -/
def select_mode (a : Args) : String :=
  if a.mode = "auto" && looks_like_slash_commands a.prompt then "interactive" else a.mode

/-- The flag group an optional string-valued field contributes to the
argument vector: empty when the field is unset or the empty string. -/
def optGroup (flag : String) (v : Option String) : List String :=
  match v with
  | none => []
  | some s => if s = "" then [] else [flag, s]

/-- The flag group the prompt field contributes: present whenever the
field is set, even to the empty string. -/
def promptGroup (v : Option String) : List String :=
  match v with
  | none => []
  | some p => ["-p", p]

/-- Python substring containment (`needle in hay`). -/
def containsSubstr (hay needle : String) : Bool :=
  (List.range (hay.toList.length + 1)).any
    (fun i => needle.toList.isPrefixOf (hay.toList.drop i))

/-- The safe characters of `shlex.quote`: ASCII alphanumerics and the
punctuation characters `_ @ % + = : , . /` and `-`. -/
def shlexSafeChar (c : Char) : Bool :=
  c.isAlphanum || ("_@%+=:,./-".toList).contains c

/-- Replaces each single-quote character by the five-character escape
sequence `shlex.quote` substitutes for it. -/
def shlexEscapeChars : List Char → List Char
  | [] => []
  | c :: rest =>
    if c = '\x27' then
      '\x27' :: '"' :: '\x27' :: '"' :: '\x27' :: shlexEscapeChars rest
    else c :: shlexEscapeChars rest

/-- Embeds `shlex.quote`: the empty string becomes a pair of single
quotes, a string of safe characters passes through, and anything else is
wrapped in single quotes with embedded single quotes escaped. -/
def shlex_quote (s : String) : String :=
  if s = "" then "\x27\x27"
  else if s.toList.all shlexSafeChar then s
  else String.mk ('\x27' :: shlexEscapeChars s.toList ++ ['\x27'])

/-- One observable action of the script: a directly executed child
process, a tmux control call via `subprocess.run` (errors ignored) or
`subprocess.check_call` (errors propagate), a recursive directory
creation, a bounded poll of the pane, a sleep (in milliseconds), or a
line written to stdout or stderr. -/
inductive Effect where
  | spawn (argv : List String) (cwd : Option String)
  | runCmd (argv : List String)
  | checkCall (argv : List String)
  | mkdirp (path : String)
  | waitPoll (needle : String) (timeout_s : Nat)
  | sleep (ms : Int)
  | printOut (s : String)
  | printErr (s : String)
deriving Repr, DecidableEq

/-- True only for the effect of directly executing, and waiting on, the
built command itself; tmux control calls are not such executions. -/
def Effect.isSpawn : Effect → Bool
  | .spawn _ _ => true
  | _ => false

/-- True for any effect that starts a child process of some kind. -/
def Effect.spawnsChild : Effect → Bool
  | .spawn _ _ => true
  | .runCmd _ => true
  | .checkCall _ => true
  | .waitPoll _ _ => true
  | _ => false

/-- True when the effect is a tmux invocation whose subcommand (the
fourth element, after `tmux -S <socket>`) is `kill-session`. -/
def Effect.isKillSession : Effect → Bool
  | .runCmd argv => argv.getD 3 "" == "kill-session"
  | .checkCall argv => argv.getD 3 "" == "kill-session"
  | _ => false

/-- The ambient system as the script observes it: `os.name`,
`shutil.which`, `os.environ.get`, `Path.exists`, `os.getcwd`, the exit
status a run of a given argv returns, whether `Path.mkdir` and each
`subprocess.check_call` succeed, the successive pane captures (indexed
by capture argv and attempt number), and the final snapshot capture. -/
structure Sys where
  os_name : String
  which : String → Option String
  env : String → Option String
  path_exists : String → Bool
  getcwd : String
  run_rc : List String → Option String → Int
  mkdir_ok : String → Bool
  tmux_ok : List String → Bool
  capture_at : List String → Nat → Except Unit String
  final_capture : Except Unit String

/-- Embeds `tmux` (lines 87-88): prefixes the socket selection. -/
def tmux_argv (socket_path : String) (argv : List String) : List String :=
  ["tmux", "-S", socket_path] ++ argv

/-- The capture argv built by `tmux_capture` (lines 91-95). -/
def tmux_capture_argv (socket_path target : String) (lines : Nat) : List String :=
  tmux_argv socket_path
    ["capture-pane", "-p", "-J", "-t", target, "-S", "-" ++ toString lines]

/-- One poll round: a successful capture matches when it contains the
needle; a `CalledProcessError` from the capture is no match. -/
def wait_round (needle : String) (r : Except Unit String) : Bool :=
  match r with
  | Except.ok txt => containsSubstr txt needle
  | Except.error _ => false

/-- The polling loop of `tmux_wait_for` (lines 98-107) with time made
explicit in milliseconds: rounds run while `now < deadline`, each
followed by a 500 ms sleep; `fuel` bounds the number of rounds. -/
def wait_from (cap : Nat → Except Unit String) (needle : String) (deadline : Nat) :
    Nat → Nat → Nat → Bool
  | 0, _, _ => false
  | fuel + 1, k, now =>
    if now < deadline then
      if wait_round needle (cap k) then true
      else wait_from cap needle deadline fuel (k + 1) (now + 500)
    else false

/-- Embeds `tmux_wait_for`: polls captures of the last 200 pane lines
until the needle appears or `timeout_s` seconds elapse, at a 500 ms
cadence, so at most `2 * timeout_s` rounds run. -/
def tmux_wait_for (sys : Sys) (socket_path target needle : String) (timeout_s : Nat) : Bool :=
  wait_from (fun k => sys.capture_at (tmux_capture_argv socket_path target 200) k)
    needle (1000 * timeout_s) (2 * timeout_s + 1) 0 0

/-- Python `x or default` on an optional string: the default is taken
when `x` is `None` or empty. -/
def pyOrOpt (v : Option String) (d : String) : String :=
  match v with
  | none => d
  | some s => if s = "" then d else s

/-- The socket directory resolution of `run_interactive` (lines
119-123): explicit option, else the `CLAWDBOT_TMUX_SOCKET_DIR`
environment variable, else a directory under `TMPDIR` (read with a
`dict.get` default of `/tmp`, which keeps an empty value). -/
def socket_dir_of (sys : Sys) (a : Args) : String :=
  pyOrOpt a.tmux_socket_dir
    (pyOrOpt (sys.env "CLAWDBOT_TMUX_SOCKET_DIR")
      (((sys.env "TMPDIR").getD "/tmp") ++ "/clawdbot-tmux-sockets"))

/-- The socket path `Path(socket_dir) / args.tmux_socket_name`,
modelled as a plain slash join. -/
def socket_path_of (sys : Sys) (a : Args) : String :=
  socket_dir_of sys a ++ "/" ++ a.tmux_socket_name

/-- The pane target `f"{session}:0.0"` (line 128). -/
def target_of (a : Args) : String :=
  a.tmux_session ++ ":0.0"

/-- `args.cwd or os.getcwd()` (line 133). -/
def cwd_of (sys : Sys) (a : Args) : String :=
  pyOrOpt a.cwd sys.getcwd

/-- Embeds `run_headless` (lines 75-84): on Windows or without the
`script` utility the argv runs directly; otherwise the shell-quoted
command string runs under `script -q -c <cmd> /dev/null`. The child
exit status is returned unmodified either way, in one blocking call. -/
def run_headless (sys : Sys) (cmd : List String) (cwd : Option String) : Int × List Effect :=
  if sys.os_name = "nt" then (sys.run_rc cmd cwd, [Effect.spawn cmd cwd])
  else
    match sys.which "script" with
    | none => (sys.run_rc cmd cwd, [Effect.spawn cmd cwd])
    | some script_bin =>
      let full := [script_bin, "-q", "-c",
        String.intercalate " " (cmd.map shlex_quote), "/dev/null"]
      (sys.run_rc full cwd, [Effect.spawn full cwd])

/-- The restricted flag set of the interactive launch command (lines
135-149): permission mode, tool allow-list, system prompt append and
replacement, continuation, resume, and pass-through arguments. -/
def interactive_base (a : Args) : List String :=
  let base := [a.claude_bin]
  let base := addOpt base "--permission-mode" a.permission_mode
  let base := addOpt base "--allowedTools" a.allowed_tools
  let base := addOpt base "--append-system-prompt" a.append_system_prompt
  let base := addOpt base "--system-prompt" a.system_prompt
  let base := addFlag base a.continue_latest "--continue"
  let base := addOpt base "--resume" a.resume
  let base := addExtra base a.extra
  base

/-- The launch line (line 151): a `cd` prefix and the shell-quoted base
command, joined into one literal string. -/
def interactive_launch (a : Args) (cwd : String) : String :=
  "cd " ++ shlex_quote cwd ++ " && " ++
    String.intercalate " " ((interactive_base a).map shlex_quote)

/-- The argv killing any previous session of the same name (line 130). -/
def kill_session_argv (sys : Sys) (a : Args) : List String :=
  tmux_argv (socket_path_of sys a) ["kill-session", "-t", a.tmux_session]

/-- The argv creating the fresh detached session (line 131). -/
def new_session_argv (sys : Sys) (a : Args) : List String :=
  tmux_argv (socket_path_of sys a) ["new-session", "-d", "-s", a.tmux_session, "-n", "shell"]

/-- The argv injecting literal text into the pane (lines 152, 162). -/
def send_lit_argv (sys : Sys) (a : Args) (text : String) : List String :=
  tmux_argv (socket_path_of sys a) ["send-keys", "-t", target_of a, "-l", "--", text]

/-- The argv sending the submit keystroke (lines 153, 157, 163). -/
def send_enter_argv (sys : Sys) (a : Args) : List String :=
  tmux_argv (socket_path_of sys a) ["send-keys", "-t", target_of a, "Enter"]

/-- The argv injecting the launch line (line 152). -/
def send_launch_argv (sys : Sys) (a : Args) : List String :=
  send_lit_argv sys a (interactive_launch a (cwd_of sys a))

/-- The lines delivered to the session (lines 160-161): nothing when the
prompt is absent or empty (falsy), otherwise the non-blank lines of the
prompt in their original order. -/
def prompt_lines (a : Args) : List String :=
  match a.prompt with
  | none => []
  | some p =>
    if p = "" then []
    else (pySplitlines p).filter (fun ln => pyStrip ln != "")

/-- The paced delivery loop (lines 161-164): for each line, a literal
send-keys, an Enter send-keys, then a sleep of the per-line delay; a
failing check_call propagates immediately. -/
def send_lines (sys : Sys) (lit : String → List String) (ent : List String) (delay_ms : Int) :
    List String → Except Unit (List Effect)
  | [] => Except.ok []
  | ln :: rest =>
    if sys.tmux_ok (lit ln) = false then Except.error ()
    else if sys.tmux_ok ent = false then Except.error ()
    else
      match send_lines sys lit ent delay_ms rest with
      | Except.error e => Except.error e
      | Except.ok es =>
        Except.ok (Effect.checkCall (lit ln) :: Effect.checkCall ent ::
          Effect.sleep delay_ms :: es)

/-- The setup effects of a successful interactive run, in program order
(lines 124-156): directory creation, idempotent kill of any previous
session, session creation, launch injection and submit, then the
bounded trust-prompt poll. -/
def interactive_head_es (sys : Sys) (a : Args) : List Effect :=
  [Effect.mkdirp (socket_dir_of sys a),
   Effect.runCmd (kill_session_argv sys a),
   Effect.checkCall (new_session_argv sys a),
   Effect.checkCall (send_launch_argv sys a),
   Effect.checkCall (send_enter_argv sys a),
   Effect.waitPoll "trust this folder" 20]

/-- The best-effort trust acknowledgement (lines 156-158): when the
poll found the prompt, one Enter and a one second settle sleep. -/
def interactive_trust_es (sys : Sys) (a : Args) : List Effect :=
  if tmux_wait_for sys (socket_path_of sys a) (target_of a) "trust this folder" 20 then
    [Effect.runCmd (send_enter_argv sys a), Effect.sleep 1000]
  else []

/-- The attach and snapshot hints printed on stdout (lines 166-168). -/
def interactive_hint_es (sys : Sys) (a : Args) : List Effect :=
  [Effect.printOut "Started interactive Claude Code in tmux",
   Effect.printOut ("Monitor:  tmux -S " ++ shlex_quote (socket_path_of sys a) ++
     " attach -t " ++ shlex_quote a.tmux_session),
   Effect.printOut ("Snapshot: tmux -S " ++ shlex_quote (socket_path_of sys a) ++
     " capture-pane -p -J -t " ++ shlex_quote (target_of a) ++ " -S -200")]

/-- The optional post-launch wait and final snapshot (lines 170-176); a
failing capture is swallowed after the banner is printed. -/
def interactive_tail_es (sys : Sys) (a : Args) : List Effect :=
  if a.interactive_wait_s > 0 then
    Effect.sleep (a.interactive_wait_s * 1000) ::
      Effect.printOut "\n--- tmux snapshot (last 200 lines) ---\n" ::
      (match sys.final_capture with
       | Except.ok txt => [Effect.printOut txt]
       | Except.error _ => [])
  else []

/-- Embeds `run_interactive` (lines 110-178): Windows and a missing
tmux fail fast with exit code 2; any failing setup step propagates as
an error; otherwise the session is set up, the prompt lines are
delivered paced, and the function returns 0 without waiting on the
driven program. -/
def run_interactive (sys : Sys) (a : Args) : Except Unit (Int × List Effect) :=
  if sys.os_name = "nt" then
    Except.ok (2, [Effect.printErr "interactive tmux mode is not supported on Windows"])
  else if sys.which "tmux" = none then
    Except.ok (2, [Effect.printErr "tmux not found in PATH"])
  else if sys.mkdir_ok (socket_dir_of sys a) = false then Except.error ()
  else if sys.tmux_ok (new_session_argv sys a) = false then Except.error ()
  else if sys.tmux_ok (send_launch_argv sys a) = false then Except.error ()
  else if sys.tmux_ok (send_enter_argv sys a) = false then Except.error ()
  else
    match send_lines sys (send_lit_argv sys a) (send_enter_argv sys a)
        a.interactive_send_delay_ms (prompt_lines a) with
    | Except.error e => Except.error e
    | Except.ok prompt_es =>
      Except.ok (0, interactive_head_es sys a ++ interactive_trust_es sys a ++ prompt_es
        ++ interactive_hint_es sys a ++ interactive_tail_es sys a)

/-- Embeds the `extra` normalisation of `main` (lines 211-214): one
leading literal `--` separator is stripped. -/
def stripDoubleDash : List String → List String
  | "--" :: rest => rest
  | l => l

/-- Embeds `main` (lines 209-227) after argument parsing: normalise the
pass-through arguments, fail fast when the executable neither exists on
disk nor resolves on the search path, then dispatch on the selected
mode. -/
def main_run (sys : Sys) (a0 : Args) : Except Unit (Int × List Effect) :=
  let a : Args := { a0 with extra := stripDoubleDash a0.extra }
  if !sys.path_exists a.claude_bin && (sys.which a.claude_bin).isNone then
    Except.ok (2, [Effect.printErr ("claude binary not found: " ++ a.claude_bin)])
  else if select_mode a = "interactive" then run_interactive sys a
  else Except.ok (run_headless sys (build_cmd a) a.cwd)

/-- The effect segment produced by delivering the prompt lines: per
line, a literal injection, a submit keystroke, and the per-line delay,
in that order and strictly sequentially. -/
def interactive_prompt_es (sys : Sys) (a : Args) : List Effect :=
  ((prompt_lines a).map (fun ln =>
    [Effect.checkCall (send_lit_argv sys a ln),
     Effect.checkCall (send_enter_argv sys a),
     Effect.sleep a.interactive_send_delay_ms])).join

/-- A POSIX system on which nothing resolves on the search path, no
file exists, every tmux call and mkdir succeeds, every child returns 0,
and every pane capture fails. -/
def sysAbsent : Sys :=
  { os_name := "posix", which := fun _ => none, env := fun _ => none,
    path_exists := fun _ => false, getcwd := "/", run_rc := fun _ _ => 0,
    mkdir_ok := fun _ => true, tmux_ok := fun _ => true,
    capture_at := fun _ _ => Except.error (), final_capture := Except.error () }

/-- Like `sysAbsent`, but every executable resolves under `/usr/bin`. -/
def sysScriptful : Sys :=
  { sysAbsent with which := fun s => some ("/usr/bin/" ++ s) }

/-- A configuration with a single slash-command prompt. -/
def argsInit : Args :=
  { claude_bin := "claude", prompt := some "/init" }

/-- A configuration whose prompt has two non-blank lines separated by a
blank line. -/
def argsTwoLines : Args :=
  { claude_bin := "claude", prompt := some "/init\n\ndo thing" }

lemma addOpt_eq (cmd : List String) (flag : String) (v : Option String) :
    addOpt cmd flag v = cmd ++ optGroup flag v := by
  cases v with
  | none => simp [addOpt, optGroup]
  | some s =>
    by_cases h : s = "" <;> simp [addOpt, optGroup, h]

lemma addFlag_eq (cmd : List String) (b : Bool) (f : String) :
    addFlag cmd b f = cmd ++ (if b then [f] else []) := by
  cases b <;> simp [addFlag]

lemma addPrompt_eq (cmd : List String) (v : Option String) :
    addPrompt cmd v = cmd ++ promptGroup v := by
  cases v <;> simp [addPrompt, promptGroup]

lemma addExtra_eq (cmd : List String) (l : List String) :
    addExtra cmd l = cmd ++ l := by
  cases l <;> simp [addExtra]

/-- The argument vector decomposes into the executable path followed by
one group per configuration field, in the fixed source order. -/
lemma build_cmd_decomp (a : Args) :
    build_cmd a =
      [a.claude_bin]
        ++ optGroup "--permission-mode" a.permission_mode
        ++ optGroup "--allowedTools" a.allowed_tools
        ++ optGroup "--output-format" a.output_format
        ++ optGroup "--json-schema" a.json_schema
        ++ optGroup "--append-system-prompt" a.append_system_prompt
        ++ optGroup "--system-prompt" a.system_prompt
        ++ (if a.continue_latest then ["--continue"] else [])
        ++ optGroup "--resume" a.resume
        ++ promptGroup a.prompt
        ++ a.extra := by
  simp only [build_cmd, addOpt_eq, addFlag_eq, addPrompt_eq, addExtra_eq, List.append_assoc]

lemma optGroup_eq_nil_iff (f : String) (v : Option String) :
    optGroup f v = [] ↔ (v = none ∨ v = some "") := by
  cases v with
  | none => simp [optGroup]
  | some s => by_cases h : s = "" <;> simp [optGroup, h]

lemma optGroup_eq_pair_iff (f : String) (v : Option String) (x : String) :
    optGroup f v = [f, x] ↔ (v = some x ∧ x ≠ "") := by
  cases v with
  | none => simp [optGroup]
  | some s =>
    by_cases h : s = ""
    · subst h
      simp only [optGroup, if_pos rfl]
      constructor
      · intro hx
        exact absurd hx (by simp)
      · rintro ⟨hx, hx0⟩
        injection hx with hx
        exact absurd hx.symm hx0
    · simp only [optGroup, if_neg h, List.cons.injEq, and_true, true_and,
        Option.some.injEq]
      constructor
      · rintro rfl
        exact ⟨rfl, h⟩
      · rintro ⟨rfl, _⟩
        rfl

/-- C1: with mode `auto`, interactive is selected exactly when the prompt
is present, non-empty, and has a line that begins with `/` after stripping
leading whitespace; in every other case the mode stays `auto` and the
dispatch in `main` therefore falls to the headless branch, while an
explicit `headless` or `interactive` mode is passed through unchanged. -/
theorem mode_selection_heuristic (a : Args) :
    (a.mode = "auto" →
      (select_mode a = "interactive" ↔
        ∃ p, a.prompt = some p ∧ p ≠ "" ∧
          ∃ line ∈ pySplitlines p, pyStartsWith (pyLstrip line) "/" = true))
    ∧ (a.mode = "headless" → select_mode a = "headless")
    ∧ (a.mode = "interactive" → select_mode a = "interactive") := by
  have hlooks : looks_like_slash_commands a.prompt = true ↔
      ∃ p, a.prompt = some p ∧ p ≠ "" ∧
        ∃ line ∈ pySplitlines p, pyStartsWith (pyLstrip line) "/" = true := by
    cases hp : a.prompt with
    | none => simp [looks_like_slash_commands]
    | some p =>
      by_cases hp0 : p = ""
      · subst hp0
        simp [looks_like_slash_commands]
      · simp [looks_like_slash_commands, hp0, List.any_eq_true]
  refine ⟨?_, ?_, ?_⟩
  · intro h
    rw [← hlooks]
    unfold select_mode
    rw [h]
    cases hl : looks_like_slash_commands a.prompt <;> simp [hl]
  · intro h
    unfold select_mode
    rw [h]
    simp
  · intro h
    unfold select_mode
    rw [h]
    cases hl : looks_like_slash_commands a.prompt <;> simp [hl]

/-- Concrete instantiation of the mode heuristic: a prompt whose first
line is a slash command selects interactive mode. -/
theorem mode_selection_heuristic_witness :
    select_mode { claude_bin := "claude", prompt := some "/init\ndo thing" } = "interactive" :=
  ((mode_selection_heuristic { claude_bin := "claude", prompt := some "/init\ndo thing" }).1
    rfl).mpr ⟨"/init\ndo thing", rfl, by decide, "/init", by decide, by decide⟩

/-- C2: the Argument Builder emits one group per set field, in the fixed
source order; a group is empty exactly when its field is unset or the
empty string, and the emitted resume group is `--resume X` exactly when
the resume field is the non-empty string `X`. -/
theorem build_cmd_groups (a : Args) :
    (build_cmd a =
      [a.claude_bin]
        ++ optGroup "--permission-mode" a.permission_mode
        ++ optGroup "--allowedTools" a.allowed_tools
        ++ optGroup "--output-format" a.output_format
        ++ optGroup "--json-schema" a.json_schema
        ++ optGroup "--append-system-prompt" a.append_system_prompt
        ++ optGroup "--system-prompt" a.system_prompt
        ++ (if a.continue_latest then ["--continue"] else [])
        ++ optGroup "--resume" a.resume
        ++ promptGroup a.prompt
        ++ a.extra)
    ∧ (∀ f v, optGroup f v = [] ↔ (v = none ∨ v = some ""))
    ∧ (∀ x, optGroup "--resume" a.resume = ["--resume", x] ↔
        (a.resume = some x ∧ x ≠ "")) :=
  ⟨build_cmd_decomp a, fun f v => optGroup_eq_nil_iff f v,
   fun x => optGroup_eq_pair_iff "--resume" a.resume x⟩

/-- C10: an empty-string prompt is still appended as `-p ""` (its test is
`is not None`), whereas every other string-valued field set to the empty
string is omitted (truthiness test). -/
theorem build_cmd_empty_string_fields (bin : String) (extra : List String) (cont : Bool) :
    (build_cmd { claude_bin := bin,
                 permission_mode := some "",
                 allowed_tools := some "",
                 output_format := some "",
                 json_schema := some "",
                 append_system_prompt := some "",
                 system_prompt := some "",
                 continue_latest := cont,
                 resume := some "",
                 prompt := some "",
                 extra := extra } =
      [bin] ++ (if cont then ["--continue"] else []) ++ ["-p", ""] ++ extra)
    ∧ (∀ a : Args, a.prompt = some "" →
        ∃ l r, build_cmd a = l ++ ["-p", ""] ++ r) := by
  constructor
  · rw [build_cmd_decomp]
    cases cont <;> simp [optGroup, promptGroup]
  · intro a hp
    refine ⟨[a.claude_bin]
        ++ optGroup "--permission-mode" a.permission_mode
        ++ optGroup "--allowedTools" a.allowed_tools
        ++ optGroup "--output-format" a.output_format
        ++ optGroup "--json-schema" a.json_schema
        ++ optGroup "--append-system-prompt" a.append_system_prompt
        ++ optGroup "--system-prompt" a.system_prompt
        ++ (if a.continue_latest then ["--continue"] else [])
        ++ optGroup "--resume" a.resume, a.extra, ?_⟩
    rw [build_cmd_decomp, hp]
    simp [promptGroup, List.append_assoc]

/-- Concrete instantiation: with only an empty-string prompt set, the
built vector is the executable followed by `-p ""`. -/
theorem build_cmd_empty_string_fields_witness :
    ∃ l r, build_cmd { claude_bin := "claude", prompt := some "" } = l ++ ["-p", ""] ++ r :=
  (build_cmd_empty_string_fields "claude" [] false).2
    { claude_bin := "claude", prompt := some "" } rfl

lemma wait_round_iff (needle : String) (r : Except Unit String) :
    wait_round needle r = true ↔
      ∃ txt, r = Except.ok txt ∧ containsSubstr txt needle = true := by
  cases r <;> simp [wait_round]

lemma wait_from_iff (cap : Nat → Except Unit String) (needle : String) (deadline : Nat) :
    ∀ fuel k now, wait_from cap needle deadline fuel k now = true ↔
      ∃ i, i < fuel ∧ now + 500 * i < deadline ∧
        wait_round needle (cap (k + i)) = true := by
  intro fuel
  induction fuel with
  | zero =>
    intro k now
    simp [wait_from]
  | succ n ih =>
    intro k now
    by_cases hnow : now < deadline
    · by_cases hr : wait_round needle (cap k) = true
      · rw [wait_from, if_pos hnow, if_pos hr]
        constructor
        · intro _
          refine ⟨0, Nat.succ_pos n, ?_, ?_⟩
          · simpa using hnow
          · simpa using hr
        · intro _
          rfl
      · rw [wait_from, if_pos hnow, if_neg hr, ih (k + 1) (now + 500)]
        constructor
        · rintro ⟨i, hi, hd, hm⟩
          refine ⟨i + 1, by omega, by omega, ?_⟩
          have harith : k + 1 + i = k + (i + 1) := by omega
          rwa [harith] at hm
        · rintro ⟨i, hi, hd, hm⟩
          match i, hi, hd, hm with
          | 0, hi, hd, hm =>
            exact absurd (by simpa using hm) hr
          | i + 1, hi, hd, hm =>
            refine ⟨i, by omega, by omega, ?_⟩
            have harith : k + 1 + i = k + (i + 1) := by omega
            rwa [harith]
    · rw [wait_from, if_neg hnow]
      simp only [Bool.false_eq_true, false_iff]
      rintro ⟨i, hi, hd, hm⟩
      omega

/-- C3: the Screen Poller returns true exactly when some capture of the
last 200 pane lines within the deadline (at the 500 ms cadence, hence
fewer than `2 * timeout_s` rounds) succeeds and contains the needle; a
capture error in a round can never witness a match and is simply
skipped, and once no round matches the result is false. -/
theorem screen_poller_spec (sys : Sys) (socket_path target needle : String) (t : Nat) :
    tmux_wait_for sys socket_path target needle t = true ↔
      ∃ k, k < 2 * t ∧ ∃ txt,
        sys.capture_at (tmux_capture_argv socket_path target 200) k = Except.ok txt ∧
        containsSubstr txt needle = true := by
  unfold tmux_wait_for
  rw [wait_from_iff]
  constructor
  · rintro ⟨i, hi, hd, hm⟩
    rw [wait_round_iff] at hm
    obtain ⟨txt, hcap, hc⟩ := hm
    exact ⟨i, by omega, txt, by simpa using hcap, hc⟩
  · rintro ⟨k, hk, txt, hcap, hc⟩
    refine ⟨k, by omega, by omega, ?_⟩
    rw [wait_round_iff]
    exact ⟨txt, by simpa using hcap, hc⟩

lemma interactive_base_decomp (a : Args) :
    interactive_base a =
      [a.claude_bin]
        ++ optGroup "--permission-mode" a.permission_mode
        ++ optGroup "--allowedTools" a.allowed_tools
        ++ optGroup "--append-system-prompt" a.append_system_prompt
        ++ optGroup "--system-prompt" a.system_prompt
        ++ (if a.continue_latest then ["--continue"] else [])
        ++ optGroup "--resume" a.resume
        ++ a.extra := by
  simp only [interactive_base, addOpt_eq, addFlag_eq, addExtra_eq, List.append_assoc]

/-- C6: the interactive launch command is one literal line, a directory
change followed by the shell-quoted restricted argument vector, which is
built from the executable path and exactly the permission-mode,
tool-allow-list, system-prompt append and replace, continuation, resume
and pass-through fields in that order; it depends on no other field, so
output-format and schema never appear in it even when set. -/
theorem interactive_launch_restricted (a b : Args) :
    (interactive_base a =
      [a.claude_bin]
        ++ optGroup "--permission-mode" a.permission_mode
        ++ optGroup "--allowedTools" a.allowed_tools
        ++ optGroup "--append-system-prompt" a.append_system_prompt
        ++ optGroup "--system-prompt" a.system_prompt
        ++ (if a.continue_latest then ["--continue"] else [])
        ++ optGroup "--resume" a.resume
        ++ a.extra)
    ∧ (∀ cwd, interactive_launch a cwd =
        "cd " ++ shlex_quote cwd ++ " && " ++
          String.intercalate " " ((interactive_base a).map shlex_quote))
    ∧ (a.claude_bin = b.claude_bin → a.permission_mode = b.permission_mode →
       a.allowed_tools = b.allowed_tools →
       a.append_system_prompt = b.append_system_prompt →
       a.system_prompt = b.system_prompt → a.continue_latest = b.continue_latest →
       a.resume = b.resume → a.extra = b.extra →
       interactive_base a = interactive_base b) := by
  refine ⟨interactive_base_decomp a, fun cwd => rfl, ?_⟩
  intro h1 h2 h3 h4 h5 h6 h7 h8
  rw [interactive_base_decomp a, interactive_base_decomp b, h1, h2, h3, h4, h5, h6, h7, h8]

/-- Concrete instantiation: setting output-format and schema leaves the
interactive launch vector unchanged. -/
theorem interactive_launch_restricted_witness :
    interactive_base { claude_bin := "claude", output_format := some "json",
                       json_schema := some "schema.json", prompt := some "/init" } =
      interactive_base { claude_bin := "claude" } :=
  (interactive_launch_restricted
    { claude_bin := "claude", output_format := some "json",
      json_schema := some "schema.json", prompt := some "/init" }
    { claude_bin := "claude" }).2.2 rfl rfl rfl rfl rfl rfl rfl rfl

lemma send_lines_all_ok (sys : Sys) (lit : String → List String) (ent : List String)
    (delay : Int) (hok : ∀ argv, sys.tmux_ok argv = true) :
    ∀ lines, send_lines sys lit ent delay lines =
      Except.ok ((lines.map (fun ln => [Effect.checkCall (lit ln), Effect.checkCall ent,
        Effect.sleep delay])).join) := by
  intro lines
  induction lines with
  | nil => simp [send_lines]
  | cons ln rest ih =>
    simp only [send_lines]
    rw [if_neg (show ¬ sys.tmux_ok (lit ln) = false by simp [hok])]
    rw [if_neg (show ¬ sys.tmux_ok ent = false by simp [hok])]
    rw [ih]
    simp

lemma run_interactive_ok (sys : Sys) (a : Args)
    (hos : sys.os_name ≠ "nt") (htm : sys.which "tmux" ≠ none)
    (hmk : sys.mkdir_ok (socket_dir_of sys a) = true)
    (hok : ∀ argv, sys.tmux_ok argv = true) :
    run_interactive sys a = Except.ok (0,
      interactive_head_es sys a ++ interactive_trust_es sys a ++ interactive_prompt_es sys a
        ++ interactive_hint_es sys a ++ interactive_tail_es sys a) := by
  unfold run_interactive
  rw [if_neg hos, if_neg htm]
  rw [if_neg (show ¬ sys.mkdir_ok (socket_dir_of sys a) = false by simp [hmk])]
  rw [if_neg (show ¬ sys.tmux_ok (new_session_argv sys a) = false by simp [hok])]
  rw [if_neg (show ¬ sys.tmux_ok (send_launch_argv sys a) = false by simp [hok])]
  rw [if_neg (show ¬ sys.tmux_ok (send_enter_argv sys a) = false by simp [hok])]
  rw [send_lines_all_ok sys _ _ _ hok]
  rfl

lemma head_es_no_spawn (sys : Sys) (a : Args) :
    ∀ e ∈ interactive_head_es sys a, Effect.isSpawn e = false := by
  intro e he
  simp only [interactive_head_es, List.mem_cons, List.not_mem_nil, or_false] at he
  rcases he with rfl | rfl | rfl | rfl | rfl | rfl <;> rfl

lemma trust_es_shapes (sys : Sys) (a : Args) :
    ∀ e ∈ interactive_trust_es sys a,
      Effect.isSpawn e = false ∧ Effect.isKillSession e = false := by
  intro e he
  unfold interactive_trust_es at he
  by_cases hf :
    tmux_wait_for sys (socket_path_of sys a) (target_of a) "trust this folder" 20 = true
  · rw [if_pos hf] at he
    simp only [List.mem_cons, List.not_mem_nil, or_false] at he
    rcases he with rfl | rfl <;> exact ⟨rfl, rfl⟩
  · rw [if_neg hf] at he
    simp at he

lemma prompt_es_shapes (sys : Sys) (a : Args) :
    ∀ e ∈ interactive_prompt_es sys a,
      Effect.isSpawn e = false ∧ Effect.isKillSession e = false := by
  intro e he
  unfold interactive_prompt_es at he
  rw [List.mem_join] at he
  obtain ⟨l, hl, hel⟩ := he
  rw [List.mem_map] at hl
  obtain ⟨ln, _, rfl⟩ := hl
  simp only [List.mem_cons, List.not_mem_nil, or_false] at hel
  rcases hel with rfl | rfl | rfl <;> exact ⟨rfl, rfl⟩

lemma hint_es_shapes (sys : Sys) (a : Args) :
    ∀ e ∈ interactive_hint_es sys a,
      Effect.isSpawn e = false ∧ Effect.isKillSession e = false := by
  intro e he
  simp only [interactive_hint_es, List.mem_cons, List.not_mem_nil, or_false] at he
  rcases he with rfl | rfl | rfl <;> exact ⟨rfl, rfl⟩

lemma tail_es_shapes (sys : Sys) (a : Args) :
    ∀ e ∈ interactive_tail_es sys a,
      Effect.isSpawn e = false ∧ Effect.isKillSession e = false := by
  intro e he
  unfold interactive_tail_es at he
  by_cases hw : a.interactive_wait_s > 0
  · rw [if_pos hw] at he
    cases hfc : sys.final_capture with
    | ok txt =>
      rw [hfc] at he
      simp only [List.mem_cons, List.not_mem_nil, or_false] at he
      rcases he with rfl | rfl | rfl <;> exact ⟨rfl, rfl⟩
    | error u =>
      rw [hfc] at he
      simp only [List.mem_cons, List.not_mem_nil, or_false] at he
      rcases he with rfl | rfl <;> exact ⟨rfl, rfl⟩
  · rw [if_neg hw] at he
    simp at he

/-- C5: once every setup step succeeds, the interactive run returns exit
code 0 unconditionally; its effect trace never directly executes (and so
never waits on) the built command itself, and after the initial
idempotent kill of a stale session no further kill-session call occurs,
so the session is left running when the program returns. -/
theorem interactive_setup_returns_zero (sys : Sys) (a : Args)
    (hos : sys.os_name ≠ "nt") (htm : sys.which "tmux" ≠ none)
    (hmk : sys.mkdir_ok (socket_dir_of sys a) = true)
    (hok : ∀ argv, sys.tmux_ok argv = true) :
    ∃ es, run_interactive sys a = Except.ok (0, es)
      ∧ (∀ e ∈ es, Effect.isSpawn e = false)
      ∧ ∃ rest, es = Effect.mkdirp (socket_dir_of sys a) ::
            Effect.runCmd (kill_session_argv sys a) :: rest
          ∧ ∀ e ∈ rest, Effect.isKillSession e = false := by
  refine ⟨_, run_interactive_ok sys a hos htm hmk hok, ?_, ?_⟩
  · intro e he
    simp only [List.mem_append] at he
    rcases he with (((h | h) | h) | h) | h
    · exact head_es_no_spawn sys a e h
    · exact (trust_es_shapes sys a e h).1
    · exact (prompt_es_shapes sys a e h).1
    · exact (hint_es_shapes sys a e h).1
    · exact (tail_es_shapes sys a e h).1
  · refine ⟨Effect.checkCall (new_session_argv sys a) ::
        Effect.checkCall (send_launch_argv sys a) ::
        Effect.checkCall (send_enter_argv sys a) ::
        Effect.waitPoll "trust this folder" 20 ::
        (interactive_trust_es sys a ++ interactive_prompt_es sys a
          ++ interactive_hint_es sys a ++ interactive_tail_es sys a), ?_, ?_⟩
    · simp [interactive_head_es, List.append_assoc]
    · intro e he
      simp only [List.mem_cons, List.mem_append] at he
      rcases he with rfl | rfl | rfl | rfl | ((h | h) | h) | h
      · rfl
      · rfl
      · rfl
      · rfl
      · exact (trust_es_shapes sys a e h).2
      · exact (prompt_es_shapes sys a e h).2
      · exact (hint_es_shapes sys a e h).2
      · exact (tail_es_shapes sys a e h).2

/-- Concrete instantiation: a fully successful interactive setup on a
POSIX system with tmux present returns exit code 0. -/
theorem interactive_setup_returns_zero_witness :
    ∃ es, run_interactive sysScriptful argsInit = Except.ok (0, es)
      ∧ (∀ e ∈ es, Effect.isSpawn e = false)
      ∧ ∃ rest, es = Effect.mkdirp (socket_dir_of sysScriptful argsInit) ::
            Effect.runCmd (kill_session_argv sysScriptful argsInit) :: rest
          ∧ ∀ e ∈ rest, Effect.isKillSession e = false :=
  interactive_setup_returns_zero sysScriptful argsInit
    (by decide) (by decide) rfl (fun _ => rfl)

/-- C9: under the same successful setup, the effect trace contains, as
one contiguous block, exactly the non-blank lines of the supplied prompt
in their original order, each delivered as a literal injection, then a
submit keystroke, then a sleep of the configured per-line delay, with
line N+1 strictly after the submit and delay of line N. -/
theorem interactive_prompt_pacing (sys : Sys) (a : Args) (p : String)
    (hp : a.prompt = some p) (hp0 : p ≠ "")
    (hos : sys.os_name ≠ "nt") (htm : sys.which "tmux" ≠ none)
    (hmk : sys.mkdir_ok (socket_dir_of sys a) = true)
    (hok : ∀ argv, sys.tmux_ok argv = true) :
    ∃ pre post, run_interactive sys a = Except.ok (0, pre ++
      (((pySplitlines p).filter (fun ln => pyStrip ln != "")).map
        (fun ln => [Effect.checkCall (send_lit_argv sys a ln),
          Effect.checkCall (send_enter_argv sys a),
          Effect.sleep a.interactive_send_delay_ms])).join ++ post) := by
  refine ⟨interactive_head_es sys a ++ interactive_trust_es sys a,
    interactive_hint_es sys a ++ interactive_tail_es sys a, ?_⟩
  rw [run_interactive_ok sys a hos htm hmk hok]
  have hpl : prompt_lines a = (pySplitlines p).filter (fun ln => pyStrip ln != "") := by
    simp [prompt_lines, hp, hp0]
  simp [interactive_prompt_es, hpl, List.append_assoc]

/-- Concrete instantiation of the pacing property on a two-line prompt
with a blank line between. -/
theorem interactive_prompt_pacing_witness :
    ∃ pre post, run_interactive sysScriptful argsTwoLines = Except.ok (0, pre ++
      (((pySplitlines "/init\n\ndo thing").filter (fun ln => pyStrip ln != "")).map
        (fun ln => [Effect.checkCall (send_lit_argv sysScriptful argsTwoLines ln),
          Effect.checkCall (send_enter_argv sysScriptful argsTwoLines),
          Effect.sleep argsTwoLines.interactive_send_delay_ms])).join ++ post) :=
  interactive_prompt_pacing sysScriptful argsTwoLines "/init\n\ndo thing"
    rfl (by decide) (by decide) (by decide) rfl (fun _ => rfl)

/-- C4: when the target executable neither exists on disk nor resolves
on the search path, the program returns exit code 2 with a descriptive
message on the error stream, and the trace starts no child process of
any kind — the check runs before dispatch to either runner. -/
theorem main_missing_executable (sys : Sys) (a : Args)
    (h1 : sys.path_exists a.claude_bin = false)
    (h2 : sys.which a.claude_bin = none) :
    main_run sys a =
      Except.ok (2, [Effect.printErr ("claude binary not found: " ++ a.claude_bin)])
    ∧ ∀ rc es, main_run sys a = Except.ok (rc, es) →
        ∀ e ∈ es, Effect.spawnsChild e = false := by
  have hmain : main_run sys a =
      Except.ok (2, [Effect.printErr ("claude binary not found: " ++ a.claude_bin)]) := by
    unfold main_run
    simp [h1, h2]
  refine ⟨hmain, ?_⟩
  intro rc es h e he
  rw [hmain] at h
  injection h with h
  injection h with hrc hes
  rw [← hes] at he
  simp only [List.mem_cons, List.not_mem_nil, or_false] at he
  rw [he]
  rfl

/-- Concrete instantiation: on a system where `claude` neither exists
nor resolves, the run exits with code 2 and only prints to stderr. -/
theorem main_missing_executable_witness :
    main_run sysAbsent { claude_bin := "claude" } =
      Except.ok (2, [Effect.printErr ("claude binary not found: " ++ "claude")]) :=
  (main_missing_executable sysAbsent { claude_bin := "claude" } rfl rfl).1

/-- C7: in interactive mode, a Windows runtime or a missing tmux each
returns exit code 2 immediately with a message on the error stream; the
trace holds nothing but that message, so no socket directory, session,
or child process is created first. -/
theorem interactive_platform_preconditions (sys : Sys) (a : Args) :
    (sys.os_name = "nt" →
      run_interactive sys a =
        Except.ok (2, [Effect.printErr "interactive tmux mode is not supported on Windows"]))
    ∧ (sys.os_name ≠ "nt" → sys.which "tmux" = none →
      run_interactive sys a =
        Except.ok (2, [Effect.printErr "tmux not found in PATH"])) := by
  constructor
  · intro h
    unfold run_interactive
    rw [if_pos h]
  · intro hos htm
    unfold run_interactive
    rw [if_neg hos, if_pos htm]

/-- Concrete instantiations of both interactive preconditions: Windows,
and a POSIX system without tmux. -/
theorem interactive_platform_preconditions_witness :
    run_interactive { sysAbsent with os_name := "nt" } { claude_bin := "claude" } =
        Except.ok (2, [Effect.printErr "interactive tmux mode is not supported on Windows"])
    ∧ run_interactive sysAbsent { claude_bin := "claude" } =
        Except.ok (2, [Effect.printErr "tmux not found in PATH"]) :=
  ⟨(interactive_platform_preconditions { sysAbsent with os_name := "nt" }
      { claude_bin := "claude" }).1 rfl,
   (interactive_platform_preconditions sysAbsent { claude_bin := "claude" }).2
      (by decide) rfl⟩

/-- C8: the Headless Runner executes the built argv directly and
forwards the child exit status unmodified when on Windows or when the
`script` utility is absent; when `script` resolves, it runs the single
shell-quoted command string through `script -q -c ... /dev/null` and
again forwards the child status verbatim — one spawned process either
way. -/
theorem headless_runner_spec (sys : Sys) (cmd : List String) (cwd : Option String) :
    ((sys.os_name = "nt" ∨ sys.which "script" = none) →
      run_headless sys cmd cwd = (sys.run_rc cmd cwd, [Effect.spawn cmd cwd]))
    ∧ (∀ sb, sys.os_name ≠ "nt" → sys.which "script" = some sb →
      run_headless sys cmd cwd =
        (sys.run_rc [sb, "-q", "-c",
            String.intercalate " " (cmd.map shlex_quote), "/dev/null"] cwd,
         [Effect.spawn [sb, "-q", "-c",
            String.intercalate " " (cmd.map shlex_quote), "/dev/null"] cwd])) := by
  constructor
  · rintro (h | h)
    · unfold run_headless
      rw [if_pos h]
    · by_cases hos : sys.os_name = "nt"
      · unfold run_headless
        rw [if_pos hos]
      · unfold run_headless
        rw [if_neg hos, h]
  · intro sb hos hsb
    unfold run_headless
    rw [if_neg hos, hsb]

/-- Concrete instantiations of both headless paths: no `script` on the
search path, and `script` resolving under `/usr/bin`. -/
theorem headless_runner_spec_witness :
    run_headless sysAbsent ["claude"] none =
      (sysAbsent.run_rc ["claude"] none, [Effect.spawn ["claude"] none])
    ∧ run_headless sysScriptful ["claude"] none =
      (sysScriptful.run_rc ["/usr/bin/script", "-q", "-c",
          String.intercalate " " (["claude"].map shlex_quote), "/dev/null"] none,
       [Effect.spawn ["/usr/bin/script", "-q", "-c",
          String.intercalate " " (["claude"].map shlex_quote), "/dev/null"] none]) :=
  ⟨(headless_runner_spec sysAbsent ["claude"] none).1 (Or.inr rfl),
   (headless_runner_spec sysScriptful ["claude"] none).2 "/usr/bin/script" (by decide) rfl⟩
